import Mathlib

/-!
Verification of the worker-host core of the deadline-cloud-test-fixtures
repository: the Remote Command Channel (EC2/SSM variant in
`src/deadline_test_fixtures/ec2/instance.py`, Docker variant in
`src/deadline_test_fixtures/deadline/worker.py`) and the Worker Host
lifecycle operations built on them.

The Python code is embedded shallowly: external collaborators (the SSM
`send_command` dispatch, `get_command_invocation`, `subprocess.run`, the
docker CLI, S3 `put_object`) are oracles passed in as function arguments
or outcome values, and each Python operation becomes a total Lean function
from those oracles to an outcome value that records the returned data,
the exception raised, the side-effecting calls attempted, and the sleeps
performed.
-/

namespace DeadlineTestFixtures

/-- Modelled from the spec: `CommandResult` lives in the repository's
`models` module, which is not under `src/`. Per the spec it carries an
integer exit code, captured stdout text and captured stderr text. The
stderr field is modelled as `Option String` because the Docker channel
constructs it from `subprocess.run(...).stderr`, which is Python `None`
when stderr is redirected to stdout. -/
structure CommandResult where
  exit_code : Int
  stdout : String
  stderr : Option String
deriving Repr, DecidableEq

namespace Instance

/-- `NUM_RETRIES` constant of `Instance.send_command`. -/
def NUM_RETRIES : Nat := 10

/-- `SLEEP_INTERVAL_S` constant of `Instance.send_command`. -/
def SLEEP_INTERVAL_S : Nat := 5

/-- Outcome of one `ssm_client.send_command` dispatch attempt:
either it succeeds returning a command id, or it raises a
`botocore ClientError` carrying an error code, or it raises some other
exception. -/
inductive DispatchOutcome where
  | success (commandId : String)
  | clientError (errorCode : String)
  | otherError (msg : String)
deriving Repr, DecidableEq

/-- Result of the dispatch retry loop (`for i in range(0, NUM_RETRIES)`)
of `Instance.send_command`, together with the list of sleep durations
performed (one entry per `time.sleep` call, in seconds). `nameError`
models the unreachable fall-through where the loop ends without a
`break` and `send_command_response` is unbound. -/
inductive DispatchLoopResult where
  | dispatched (commandId : String) (sleeps : List Nat)
  | raisedClientError (errorCode : String) (sleeps : List Nat)
  | raisedOther (msg : String) (sleeps : List Nat)
  | nameError (sleeps : List Nat)
deriving Repr, DecidableEq

/-- The dispatch retry loop of `Instance.send_command`
(instance.py lines 106-124): attempt `i` calls
`ssm_client.send_command`; a `ClientError` with code
`"InvalidInstanceId"` while `i < NUM_RETRIES - 1` sleeps
`SLEEP_INTERVAL_S` seconds and continues; any other failure re-raises.
`fuel` is the number of loop iterations left (`NUM_RETRIES - i`). -/
def dispatchLoop (dispatch : Nat → DispatchOutcome) :
    Nat → Nat → List Nat → DispatchLoopResult
  | 0, _, sleeps => .nameError sleeps
  | fuel + 1, i, sleeps =>
    match dispatch i with
    | .success cid => .dispatched cid sleeps
    | .clientError code =>
      if code = "InvalidInstanceId" ∧ i < NUM_RETRIES - 1 then
        dispatchLoop dispatch fuel (i + 1) (sleeps ++ [SLEEP_INTERVAL_S])
      else
        .raisedClientError code sleeps
    | .otherError m => .raisedOther m sleeps

/-- Fields of the `ssm_client.get_command_invocation` response used by
`Instance.send_command`. -/
structure SSMInvocation where
  responseCode : Int
  standardOutputContent : String
  standardErrorContent : String
deriving Repr, DecidableEq

/-- Overall outcome of `Instance.send_command`: the returned
`CommandResult`, or the exception propagated out of the dispatch loop;
in every case the sleeps performed are recorded. -/
inductive SendOutcome where
  | ok (r : CommandResult) (sleeps : List Nat)
  | raisedClientError (errorCode : String) (sleeps : List Nat)
  | raisedOther (msg : String) (sleeps : List Nat)
  | nameError (sleeps : List Nat)
deriving Repr, DecidableEq

/-- `Instance.send_command` (instance.py lines 85-158). The dispatch
loop runs first; once dispatched, the `command_executed` waiter runs
(its `WaiterError` is swallowed, so it does not affect the outcome and
is not modelled), then `get_command_invocation` is fetched and a
`CommandResult` is built from `ResponseCode` /
`StandardOutputContent` / `StandardErrorContent` and returned. An exit
code of `-1` is logged but the result is returned all the same. -/
def send_command (dispatch : Nat → DispatchOutcome)
    (get_command_invocation : String → SSMInvocation) : SendOutcome :=
  match dispatchLoop dispatch NUM_RETRIES 0 [] with
  | .dispatched cid sleeps =>
    let inv := get_command_invocation cid
    let result : CommandResult :=
      { exit_code := inv.responseCode
        stdout := inv.standardOutputContent
        stderr := some inv.standardErrorContent }
    .ok result sleeps
  | .raisedClientError c s => .raisedClientError c s
  | .raisedOther m s => .raisedOther m s
  | .nameError s => .nameError s

/-- The mutable part of an `Instance` relevant to `stop`: the
`instance_id` field, `None` until `_launch_instance` assigns it. -/
structure InstanceState where
  instance_id : Option String
deriving Repr, DecidableEq

/-- A call made against the EC2 client. -/
inductive EC2Call where
  | terminateInstances (instanceIds : List (Option String))
deriving Repr, DecidableEq

/-- `Instance.stop` (instance.py lines 80-83): it unconditionally calls
`ec2_client.terminate_instances(InstanceIds=[self.instance_id])` — with
whatever value `instance_id` holds, `None` included — and then sets
`instance_id` to `None`. There is no guard raising a usage error first. -/
def stop (s : InstanceState) : List EC2Call × InstanceState :=
  ([.terminateInstances [s.instance_id]], { instance_id := none })

/-- The memoization state of the `ami_id` property: `ami_memo = some v`
models the presence of the `_ami_id` attribute (`hasattr(self, "_ami_id")`). -/
structure AmiState where
  ami_memo : Option String
deriving Repr, DecidableEq

/-- The body of `Instance.__post_init__` (instance.py lines 72-74): if its
`override_ami_id` parameter is truthy, set `_ami_id` to it. -/
def post_init (override_ami_id : Option String) (s : AmiState) : AmiState :=
  match override_ami_id with
  | some a => { ami_memo := some a }
  | none => s

/-- The dataclass-generated `__init__` of `Instance` invokes
`__post_init__` with no arguments (the class declares no `InitVar`
fields), so the `override_ami_id` parameter always takes its default
`None`; `props.override_ami_id` is never consulted anywhere in the
class. -/
def dataclass_init (_props_override_ami_id : Option String) : AmiState :=
  post_init none { ami_memo := none }

/-- The `Instance.ami_id` property (instance.py lines 251-269): if
`_ami_id` is absent, fetch the SSM parameter list for the fixed AL2023
name, assert exactly one parameter was returned (otherwise an
`AssertionError` is raised), memoize its value and return it; if
`_ami_id` is present, return it without any lookup. The returned triple
carries the AMI id, the updated state, and whether the SSM
`get_parameters` lookup was performed. -/
def ami_id (s : AmiState) (get_parameters : List String) :
    Except String (String × AmiState × Bool) :=
  match s.ami_memo with
  | some v => .ok (v, s, false)
  | none =>
    match get_parameters with
    | [p] => .ok (p, { ami_memo := some p }, true)
    | _ => .error "Received incorrect number of SSM parameters. Expected 1"

end Instance

/-- Helper for `basename`: scan the characters, resetting the
accumulated component at each slash. -/
def basenameChars : List Char → List Char → List Char
  | [], acc => acc.reverse
  | c :: rest, acc =>
    if c = '/' then basenameChars rest [] else basenameChars rest (c :: acc)

/-- `os.path.basename` for POSIX paths: the part after the last slash. -/
def basename (p : String) : String := String.mk (basenameChars p.data [])

/-- Python dict assignment `m[k] = v` on an insertion-ordered
association list. -/
def dictInsert (m : List (String × String)) (k v : String) :
    List (String × String) :=
  if m.any (fun q => q.1 == k) then
    m.map (fun q => if q.1 == k then (k, v) else q)
  else m ++ [(k, v)]

/-- Outcome of `upload_files_to_s3` (instance.py lines 272-301): either
the `srcpath_s3uri_map` dict together with the `put_object` calls
performed (as `(key, file)` pairs, in order), or a re-raised
`ClientError` from a `put_object` call, with the calls attempted up to
and including the failing one. -/
inductive UploadOutcome where
  | ok (srcpath_s3uri_map : List (String × String))
      (uploads : List (String × String))
  | raisedClientError (uploads : List (String × String))
deriving Repr, DecidableEq

/-- The loop of `upload_files_to_s3`: for each file, the key is the key
prefix plus the file's basename, the URI is `s3://{bucket}/{key}`, the
map entry is recorded and the file is uploaded via `put_object`; a
`ClientError` from `put_object` is logged and re-raised. No duplicate
check of any kind is performed. -/
def upload_files_to_s3_go (bucket keyPre : String) (putOk : String → Bool) :
    List String → List (String × String) → List (String × String) →
    UploadOutcome
  | [], m, ups => .ok m ups
  | file :: rest, m, ups =>
    let key := keyPre ++ basename file
    let uri := "s3://" ++ bucket ++ "/" ++ key
    let m2 := dictInsert m file uri
    let ups2 := ups ++ [(key, file)]
    if putOk key then upload_files_to_s3_go bucket keyPre putOk rest m2 ups2
    else .raisedClientError ups2

/-- `upload_files_to_s3` (instance.py lines 272-301): computes the key
prefix (`prefix or "instance/"`, with a trailing slash appended when
missing) and runs the upload loop. `putOk key` tells whether the
`put_object` call at `key` succeeds. -/
def upload_files_to_s3 (bucket : String) (files : List String)
    (pfx : Option String) (putOk : String → Bool) : UploadOutcome :=
  let keyPre0 := match pfx with
    | some p => if p = "" then "instance/" else p
    | none => "instance/"
  let keyPre := if "/".data.isSuffixOf keyPre0.data then keyPre0
    else keyPre0 ++ "/"
  upload_files_to_s3_go bucket keyPre putOk files [] []

/-- `str.rstrip("\n\r")` / `str.rstrip("\r\n")` as used on command
stdout by both `worker_id` implementations: drop every trailing
character that is a carriage return or line feed. -/
def rstripNewlines (s : String) : String :=
  String.mk ((s.data.reverse.dropWhile fun c => c == '\n' || c == '\r').reverse)

/-- Character class `[0-9a-f]` of the worker-id regex. -/
def isLowerHexDigit (c : Char) : Bool :=
  (('0' ≤ c) && (c ≤ '9')) || (('a' ≤ c) && (c ≤ 'f'))

/-- Exact-shape match of the worker-id regex body: the string is
`worker-` followed by exactly 32 characters of `[0-9a-f]`. -/
def workerIdCore (s : String) : Bool :=
  "worker-".data.isPrefixOf s.data
    && ((s.data.drop 7).length == 32)
    && (s.data.drop 7).all isLowerHexDigit

/-- Python `re.match(r"^worker-[0-9a-f]{32}$", s) is not None`: since
the pattern is anchored at both ends and `$` also matches just before a
newline that terminates the string, the string must be exactly the
pattern shape, or the pattern shape followed by a single final `\n`. -/
def reMatchWorkerId (s : String) : Bool :=
  workerIdCore s ||
    (match s.data.getLast? with
      | some c => c == '\n' && workerIdCore (String.mk s.data.dropLast)
      | none => false)

/-- The worker-identifier acceptance predicate as the spec states it:
the candidate is exactly `worker-` followed by 32 lowercase hexadecimal
characters. Stated independently of the code's `reMatchWorkerId` for
comparison against it. -/
def SpecWorkerIdAccept (s : String) : Prop :=
  ∃ h : List Char, s.data = "worker-".data ++ h ∧ h.length = 32 ∧
    ∀ c ∈ h, ('0' ≤ c ∧ c ≤ '9') ∨ ('a' ≤ c ∧ c ≤ 'f')

/-- Outcome of the worker-id validation steps shared by
`EC2InstanceWorker.worker_id` (worker.py lines 217-226) and
`DockerContainerWorker.worker_id` (worker.py lines 423-432). -/
inductive WorkerIdOutcome where
  | ok (workerId : String)
  | raisedAssert (diagnostic : CommandResult)
deriving Repr, DecidableEq

/-- The validation both `worker_id` implementations apply to the
`CommandResult` of `cat /var/lib/deadline/worker.json | jq -r
'.worker_id'`: assert a zero exit code (the raised `AssertionError`
message embeds the full `CommandResult`), strip trailing CR/LF from
stdout, and assert the stripped string matches
`^worker-[0-9a-f]{32}$`. -/
def validate_worker_id (cmd_result : CommandResult) : WorkerIdOutcome :=
  if cmd_result.exit_code ≠ 0 then .raisedAssert cmd_result
  else
    let wid := rstripNewlines cmd_result.stdout
    if reMatchWorkerId wid then .ok wid
    else .raisedAssert cmd_result

namespace DockerContainerWorker

/-- Outcome of the `subprocess.run(["docker", "exec", ...], check=True)`
invocation underlying `DockerContainerWorker.send_command`: either the
docker process ran to completion with some return code and captured
stdout (stderr is redirected into stdout), or the invocation itself
failed to launch or was interrupted. -/
inductive ExecOutcome where
  | completed (returncode : Int) (stdout : String)
  | launchError (msg : String)
deriving Repr, DecidableEq

/-- Outcome of `DockerContainerWorker.send_command` (worker.py lines
362-397). Because the subprocess is run with `check=True`, a completed
execution with non-zero return code raises `CalledProcessError` (logged
and re-raised by the `except` clause); only a zero return code reaches
the `else` branch returning a `CommandResult`. -/
inductive SendResult where
  | ok (r : CommandResult)
  | raisedCalledProcessError (returncode : Int) (stdout : String)
  | raisedLaunchError (msg : String)
  | raisedAssertionError (msg : String)
deriving Repr, DecidableEq

/-- `DockerContainerWorker.send_command` (worker.py lines 362-397):
assert the container id is set; run `docker exec <cid> /bin/bash -euo
pipefail -c <command>` with `check=True`, `stdout=PIPE` and
`stderr=STDOUT`; any exception is re-raised; on success return
`CommandResult(exit_code=returncode, stdout=stdout, stderr=stderr)`
where `result.stderr` is Python `None` because stderr was redirected. -/
def send_command (container_id : Option String) (exec : ExecOutcome) :
    SendResult :=
  match container_id with
  | none =>
    .raisedAssertionError
      "Container ID not set. Has the Docker container been started yet?"
  | some _ =>
    match exec with
    | .completed code out =>
      if code ≠ 0 then .raisedCalledProcessError code out
      else .ok { exit_code := code, stdout := out, stderr := none }
    | .launchError m => .raisedLaunchError m

/-- The mutable part of a `DockerContainerWorker` relevant to `stop` and
`send_command`: its `_container_id` field. -/
structure DockerState where
  container_id : Option String
deriving Repr, DecidableEq

/-- Outcome of a `subprocess.check_output` invocation. -/
inductive SubprocOutcome where
  | ok (stdout : String)
  | raised (msg : String)
deriving Repr, DecidableEq

/-- Outcome of `DockerContainerWorker.stop`. -/
inductive StopOutcome where
  | ok
  | raisedAssertionError (msg : String)
  | raisedSendError (e : SendResult)
  | raisedStopError (msg : String)
deriving Repr, DecidableEq

/-- A `docker container stop` subprocess launched by `stop`. -/
inductive DockerCall where
  | containerStop (cid : String)
deriving Repr, DecidableEq

/-- `DockerContainerWorker.stop` (worker.py lines 331-360): assert the
container id is set; send the `pkill` command through `send_command`
(an exception is logged and re-raised, leaving the state untouched);
then run `docker container stop <cid>` via `check_output` (an exception
is logged and re-raised, leaving the state untouched); only in the
`else` branch of that second try is `_container_id` cleared. Returns
the outcome, the resulting state and the docker CLI calls attempted. -/
def stop (s : DockerState) (pkillExec : ExecOutcome)
    (stopRun : SubprocOutcome) :
    StopOutcome × DockerState × List DockerCall :=
  match s.container_id with
  | none =>
    (.raisedAssertionError
      "Cannot stop Docker container: Container ID is not set. Has the Docker container been started yet?",
      s, [])
  | some cid =>
    match send_command (some cid) pkillExec with
    | .ok _ =>
      match stopRun with
      | .ok _ => (.ok, { container_id := none }, [.containerStop cid])
      | .raised m => (.raisedStopError m, s, [.containerStop cid])
    | e => (.raisedSendError e, s, [])

/-- Outcome of the docker-variant file-mapping staging loop in
`DockerContainerWorker.start` (worker.py lines 262-287): either the
`docker_file_mappings` dict plus the `(src, staged filename)` copies
performed, or the `AssertionError` raised on a duplicate generated
path, with the copies already performed before the assert fired. -/
inductive StageOutcome where
  | ok (docker_file_mappings : List (String × String))
      (copies : List (String × String))
  | raisedAssertionError (copies : List (String × String))
deriving Repr, DecidableEq

/-- The staging loop of `DockerContainerWorker.start` (worker.py lines
270-285): for each `(src, dst)` mapping, compute
`/file_mappings/<basename src>`, assert it is not already a key of
`docker_file_mappings` (raising before copying the current file when it
is), record the mapping and copy the file into the staging directory. -/
def stage_file_mappings_go :
    List (String × String) → List (String × String) →
    List (String × String) → StageOutcome
  | [], m, copies => .ok m copies
  | (src, dst) :: rest, m, copies =>
    let name := basename src
    let src_docker_path := "/file_mappings/" ++ name
    if m.any (fun q => q.1 == src_docker_path) then
      .raisedAssertionError copies
    else
      stage_file_mappings_go rest (m ++ [(src_docker_path, dst)])
        (copies ++ [(src, name)])

/-- The file-mapping staging step of `DockerContainerWorker.start`,
starting from the empty dict. -/
def stage_file_mappings (mappings : List (String × String)) : StageOutcome :=
  stage_file_mappings_go mappings [] []

/-- `interval_s` argument passed to `wait_for` by
`DockerContainerWorker.worker_id`. -/
def INTERVAL_S : Nat := 10

/-- `max_retries` argument passed to `wait_for` by
`DockerContainerWorker.worker_id`. -/
def MAX_RETRIES : Nat := 6

/-- Outcome of `DockerContainerWorker.worker_id`: the identifier with
the number of poll attempts made and the sleeps performed, or the
exception raised (polling budget exhausted, a failed post-poll
assertion carrying the diagnostic `CommandResult`, or an exception from
`send_command` other than `CalledProcessError`, which the predicate
does not catch). -/
inductive WorkerIdPollResult where
  | ok (workerId : String) (attempts : Nat) (sleeps : List Nat)
  | raisedTimeout (attempts : Nat) (sleeps : List Nat)
  | raisedAssert (diagnostic : CommandResult) (attempts : Nat)
      (sleeps : List Nat)
  | raisedOther (msg : String) (attempts : Nat) (sleeps : List Nat)
deriving Repr, DecidableEq

/-- Modelled from the spec: the `wait_for` helper from the repository's
`util` module is not under `src/`; per the spec it performs a bounded
retry of the predicate — here `max_retries` attempts at a fixed
`interval_s`-second interval — and raising after the budget is
exhausted is fatal. The predicate body is `got_worker_id` from
`DockerContainerWorker.worker_id` (worker.py lines 403-414): each
attempt sends the `cat .. | jq ..` command; `CalledProcessError` is
caught, logged and treated as a failed attempt; any other exception
propagates; a returned result succeeds the wait iff its exit code is 0.
After a successful wait the exit-code assertion and the regex
validation of worker.py lines 423-432 run on the last result. `runs k`
is the exec outcome of the poll attempt with 0-based index `k`; `fuel`
is the number of attempts left. -/
def worker_id_go (container_id : Option String) (runs : Nat → ExecOutcome) :
    Nat → Nat → List Nat → WorkerIdPollResult
  | 0, k, sleeps => .raisedTimeout k sleeps
  | fuel + 1, k, sleeps =>
    match send_command container_id (runs k) with
    | .ok r =>
      if r.exit_code == 0 then
        match validate_worker_id r with
        | .ok wid => .ok wid (k + 1) sleeps
        | .raisedAssert d => .raisedAssert d (k + 1) sleeps
      else
        if fuel = 0 then .raisedTimeout (k + 1) sleeps
        else worker_id_go container_id runs fuel (k + 1)
          (sleeps ++ [INTERVAL_S])
    | .raisedCalledProcessError _ _ =>
      if fuel = 0 then .raisedTimeout (k + 1) sleeps
      else worker_id_go container_id runs fuel (k + 1)
        (sleeps ++ [INTERVAL_S])
    | .raisedLaunchError m => .raisedOther m (k + 1) sleeps
    | .raisedAssertionError m => .raisedOther m (k + 1) sleeps

/-- The `worker_id` property of `DockerContainerWorker` (worker.py lines
399-432), polling with the `interval_s=10`, `max_retries=6` budget the
source passes to `wait_for`. -/
def worker_id (container_id : Option String) (runs : Nat → ExecOutcome) :
    WorkerIdPollResult :=
  worker_id_go container_id runs MAX_RETRIES 0 []

end DockerContainerWorker

end DeadlineTestFixtures

namespace DeadlineTestFixtures

namespace Instance

/-- Unfolding lemma: a run of `k` consecutive `InvalidInstanceId` dispatch
failures, all strictly before the last retry index, advances the loop `k`
iterations and records `k` sleeps of `SLEEP_INTERVAL_S` seconds. -/
theorem dispatchLoop_invalid_run (dispatch : Nat → DispatchOutcome) (k : Nat) :
    ∀ fuel i sleeps,
      (∀ j, j < k → dispatch (i + j) = .clientError "InvalidInstanceId") →
      i + k ≤ NUM_RETRIES - 1 → k ≤ fuel →
      dispatchLoop dispatch fuel i sleeps =
        dispatchLoop dispatch (fuel - k) (i + k)
          (sleeps ++ List.replicate k SLEEP_INTERVAL_S) := by
  induction k with
  | zero => intro fuel i sleeps _ _ _; simp
  | succ k ih =>
    intro fuel i sleeps hinv hle hfuel
    obtain ⟨f, rfl⟩ : ∃ f, fuel = f + 1 := ⟨fuel - 1, by omega⟩
    have h0 : dispatch i = .clientError "InvalidInstanceId" := by
      have := hinv 0 (by omega); simpa using this
    have hi : i < NUM_RETRIES - 1 := by
      have : NUM_RETRIES = 10 := rfl
      omega
    have step :
        dispatchLoop dispatch (f + 1) i sleeps =
          dispatchLoop dispatch f (i + 1) (sleeps ++ [SLEEP_INTERVAL_S]) := by
      simp [dispatchLoop, h0, hi]
    rw [step,
      ih f (i + 1) (sleeps ++ [SLEEP_INTERVAL_S])
        (fun j hj => by
          have := hinv (j + 1) (by omega)
          simpa [Nat.add_assoc, Nat.add_comm 1 j] using this)
        (by omega) (by omega)]
    congr 1
    · omega
    · omega
    · simp [List.replicate_succ, List.append_assoc]

end Instance

/-- C1: in `Instance.send_command`, an "invalid instance" classified client
error on dispatch attempts 1-9 followed by success on attempt 10 lets the
command proceed after exactly 9 sleeps of 5 seconds each; the same error on
all 10 attempts is re-raised after the 10th attempt with no further sleep
or retry; and a dispatch failure not classified as "invalid instance" (a
client error with a different code, or any other exception) propagates
immediately with no sleep. -/
theorem instance_send_command_dispatch_retry
    (d1 d2 d3 d4 : Nat → Instance.DispatchOutcome) (cid : String)
    (inv : String → Instance.SSMInvocation)
    (ecode emsg : String) (hcode : ecode ≠ "InvalidInstanceId")
    (h1a : ∀ i, i < 9 → d1 i = .clientError "InvalidInstanceId")
    (h1b : d1 9 = .success cid)
    (h2 : ∀ i, i < 10 → d2 i = .clientError "InvalidInstanceId")
    (h3 : d3 0 = .clientError ecode)
    (h4 : d4 0 = .otherError emsg) :
    Instance.send_command d1 inv =
      .ok ⟨(inv cid).responseCode, (inv cid).standardOutputContent,
        some (inv cid).standardErrorContent⟩ (List.replicate 9 5) ∧
    Instance.send_command d2 inv =
      .raisedClientError "InvalidInstanceId" (List.replicate 9 5) ∧
    Instance.send_command d3 inv = .raisedClientError ecode [] ∧
    Instance.send_command d4 inv = .raisedOther emsg [] := by
  refine ⟨?_, ?_, ?_, ?_⟩
  · have run := Instance.dispatchLoop_invalid_run d1 9 10 0 []
      (fun j hj => by simpa using h1a j hj) (by decide) (by decide)
    simp only [Instance.send_command, Instance.NUM_RETRIES] at run ⊢
    rw [run]
    simp [Instance.dispatchLoop, h1b, Instance.SLEEP_INTERVAL_S]
  · have run := Instance.dispatchLoop_invalid_run d2 9 10 0 []
      (fun j hj => by simpa using h2 j (by omega)) (by decide) (by decide)
    simp only [Instance.send_command, Instance.NUM_RETRIES] at run ⊢
    rw [run]
    have h9 : d2 9 = .clientError "InvalidInstanceId" := h2 9 (by omega)
    simp [Instance.dispatchLoop, h9, Instance.NUM_RETRIES,
      Instance.SLEEP_INTERVAL_S]
  · simp [Instance.send_command, Instance.NUM_RETRIES, Instance.dispatchLoop,
      h3, hcode]
  · simp [Instance.send_command, Instance.NUM_RETRIES, Instance.dispatchLoop,
      h4]

/-- Witness for C1 at concrete dispatch oracles. -/
theorem instance_send_command_dispatch_retry_witness :
    Instance.send_command
        (fun i => if i < 9 then .clientError "InvalidInstanceId"
          else .success "cmd-1")
        (fun _ => ⟨0, "out", "err"⟩) =
      .ok ⟨0, "out", some "err"⟩ (List.replicate 9 5) ∧
    Instance.send_command
        (fun _ => .clientError "InvalidInstanceId")
        (fun _ => ⟨0, "out", "err"⟩) =
      .raisedClientError "InvalidInstanceId" (List.replicate 9 5) ∧
    Instance.send_command
        (fun _ => .clientError "AccessDeniedException")
        (fun _ => ⟨0, "out", "err"⟩) =
      .raisedClientError "AccessDeniedException" [] ∧
    Instance.send_command
        (fun _ => .otherError "ConnectionError")
        (fun _ => ⟨0, "out", "err"⟩) =
      .raisedOther "ConnectionError" [] := by
  have h := instance_send_command_dispatch_retry
    (fun i => if i < 9 then .clientError "InvalidInstanceId"
      else .success "cmd-1")
    (fun _ => .clientError "InvalidInstanceId")
    (fun _ => .clientError "AccessDeniedException")
    (fun _ => .otherError "ConnectionError")
    "cmd-1" (fun _ => ⟨0, "out", "err"⟩)
    "AccessDeniedException" "ConnectionError"
    (by decide) (by decide) (by decide) (by decide) (by decide) (by decide)
  simpa using h

/-- C7: when the dispatch succeeds and the fetched final result carries the
sentinel exit code `-1` ("command never reached the host"),
`Instance.send_command` still returns it to the caller as a
`CommandResult`; it does not raise. -/
theorem instance_send_command_minus_one_returned
    (d : Nat → Instance.DispatchOutcome)
    (inv : String → Instance.SSMInvocation) (cid out err : String)
    (hd : d 0 = .success cid) (hinv : inv cid = ⟨-1, out, err⟩) :
    Instance.send_command d inv = .ok ⟨-1, out, some err⟩ [] := by
  simp [Instance.send_command, Instance.NUM_RETRIES, Instance.dispatchLoop,
    hd, hinv]

/-- Witness for C7 at a concrete dispatch and invocation oracle. -/
theorem instance_send_command_minus_one_returned_witness :
    Instance.send_command (fun _ => .success "cmd-2")
      (fun _ => ⟨-1, "no output", "no error"⟩) =
      .ok ⟨-1, "no output", some "no error"⟩ [] :=
  instance_send_command_minus_one_returned (fun _ => .success "cmd-2")
    (fun _ => ⟨-1, "no output", "no error"⟩) "cmd-2" "no output" "no error"
    rfl rfl

/-- C3 counterexample: `Instance.stop` on a never-started instance
(`instance_id = None`) raises no usage error — it attempts the
`terminate_instances` call, passing `[None]` as the instance-id list. -/
theorem instance_stop_unstarted_attempts_termination :
    Instance.stop { instance_id := none } =
      ([.terminateInstances [none]], { instance_id := none }) ∧
    (Instance.stop { instance_id := none }).1 ≠ [] := by
  exact ⟨rfl, by decide⟩

/-- C3 amended: only the container variant guards `stop()` on a
never-started host: `DockerContainerWorker.stop` raises an
`AssertionError` before attempting any termination, whatever the
subprocess oracles would do, while `Instance.stop` performs the
`terminate_instances` call with instance id `None` and raises no usage
error. -/
theorem stop_unstarted_usage_error
    (pk : DockerContainerWorker.ExecOutcome)
    (st : DockerContainerWorker.SubprocOutcome) :
    DockerContainerWorker.stop { container_id := none } pk st =
      (.raisedAssertionError
        "Cannot stop Docker container: Container ID is not set. Has the Docker container been started yet?",
        { container_id := none }, []) ∧
    Instance.stop { instance_id := none } =
      ([.terminateInstances [none]], { instance_id := none }) := by
  exact ⟨rfl, rfl⟩

/-- C10: `DockerContainerWorker.stop` leaves `_container_id` unchanged
when terminating the agent process raises (a `CalledProcessError` from a
non-zero `pkill` exit, or a launch failure) and when the
`docker container stop` subprocess raises; the id is cleared exactly when
the container-stop subprocess completes successfully, so the
container-id precondition of a later `stop` or `send_command` still
holds after a failed `stop`. -/
theorem docker_stop_state_on_error
    (s : DockerContainerWorker.DockerState) (cid : String)
    (hs : s.container_id = some cid)
    (code : Int) (hcode : code ≠ 0) (out pkOut stOut m1 m2 : String)
    (stopRun : DockerContainerWorker.SubprocOutcome) :
    DockerContainerWorker.stop s (.completed code out) stopRun =
      (.raisedSendError (.raisedCalledProcessError code out), s, []) ∧
    DockerContainerWorker.stop s (.launchError m1) stopRun =
      (.raisedSendError (.raisedLaunchError m1), s, []) ∧
    DockerContainerWorker.stop s (.completed 0 pkOut) (.raised m2) =
      (.raisedStopError m2, s, [.containerStop cid]) ∧
    DockerContainerWorker.stop s (.completed 0 pkOut) (.ok stOut) =
      (.ok, { container_id := none }, [.containerStop cid]) := by
  obtain ⟨i⟩ := s
  simp only [DockerContainerWorker.DockerState.container_id] at hs
  subst hs
  refine ⟨?_, ?_, ?_, ?_⟩ <;>
    simp [DockerContainerWorker.stop, DockerContainerWorker.send_command,
      hcode]

/-- Witness for C10 at a concrete started state and oracles. -/
theorem docker_stop_state_on_error_witness :
    DockerContainerWorker.stop { container_id := some "abc123" }
        (.completed 1 "") (.ok "") =
      (.raisedSendError (.raisedCalledProcessError 1 ""),
        { container_id := some "abc123" }, []) ∧
    DockerContainerWorker.stop { container_id := some "abc123" }
        (.launchError "oserror") (.ok "") =
      (.raisedSendError (.raisedLaunchError "oserror"),
        { container_id := some "abc123" }, []) ∧
    DockerContainerWorker.stop { container_id := some "abc123" }
        (.completed 0 "ok") (.raised "timeout") =
      (.raisedStopError "timeout", { container_id := some "abc123" },
        [.containerStop "abc123"]) ∧
    DockerContainerWorker.stop { container_id := some "abc123" }
        (.completed 0 "ok") (.ok "") =
      (.ok, { container_id := none }, [.containerStop "abc123"]) :=
  docker_stop_state_on_error { container_id := some "abc123" } "abc123" rfl
    1 (by decide) "" "ok" "" "oserror" "timeout" (.ok "")

/-- C5 (code bug): the dataclass-generated `__init__` of `Instance` calls
`__post_init__` with no arguments, so its `override_ami_id` parameter is
always `None` and an override AMI id supplied in the props is silently
ignored: after construction no AMI is memoized and the first `ami_id`
access performs the SSM parameter lookup, returning the looked-up value
instead of the override. The remaining parts of the claim hold: the
lookup result is memoized (a second access performs no lookup), and the
lookup raises exactly when the number of returned parameters is not 1. -/
theorem instance_override_ami_id_ignored :
    Instance.dataclass_init (some "ami-override-123") =
      { ami_memo := none } ∧
    Instance.ami_id (Instance.dataclass_init (some "ami-override-123"))
        ["ami-al2023-latest"] =
      .ok ("ami-al2023-latest", { ami_memo := some "ami-al2023-latest" },
        true) ∧
    (∀ (v : String) (ps : List String),
      Instance.ami_id { ami_memo := some v } ps =
        .ok (v, { ami_memo := some v }, false)) ∧
    (∀ ps : List String,
      (∃ p, Instance.ami_id { ami_memo := none } ps =
        .ok (p, { ami_memo := some p }, true)) ↔ ps.length = 1) := by
  refine ⟨rfl, rfl, fun v ps => rfl, fun ps => ?_⟩
  match ps with
  | [] => simp [Instance.ami_id]
  | [p] => simp [Instance.ami_id]
  | p :: q :: rest => simp [Instance.ami_id]

/-- Helper: the head of `dropWhile p l`, when present, fails `p`. -/
theorem head?_dropWhile_not {α : Type} (p : α → Bool) :
    ∀ (l : List α) (a : α), (l.dropWhile p).head? = some a → p a = false := by
  intro l
  induction l with
  | nil => intro a h; simp [List.dropWhile] at h
  | cons x xs ih =>
    intro a h
    by_cases hp : p x
    · rw [List.dropWhile_cons_of_pos hp] at h
      exact ih a h
    · rw [List.dropWhile_cons_of_neg hp] at h
      simp only [List.head?_cons, Option.some_inj] at h
      subst h
      simpa using hp

/-- Helper: the stripped string never ends in a CR or LF character. -/
theorem rstripNewlines_getLast_not_crlf (s : String) (c : Char)
    (h : (rstripNewlines s).data.getLast? = some c) :
    (c == '\n' || c == '\r') = false := by
  unfold rstripNewlines at h
  rw [show (String.mk
      ((s.data.reverse.dropWhile fun c => c == '\n' || c == '\r').reverse)).data
    = (s.data.reverse.dropWhile fun c => c == '\n' || c == '\r').reverse
    from rfl, List.getLast?_reverse] at h
  exact head?_dropWhile_not (fun c => c == '\n' || c == '\r')
    s.data.reverse c h

/-- Helper: on a stripped string the `$`-before-final-newline clause of
the Python regex can never fire, so the match is the exact shape
check. -/
theorem reMatch_rstrip (s : String) :
    reMatchWorkerId (rstripNewlines s) = workerIdCore (rstripNewlines s) := by
  unfold reMatchWorkerId
  cases hlast : (rstripNewlines s).data.getLast? with
  | none => simp [hlast]
  | some c =>
    have hb := rstripNewlines_getLast_not_crlf s c hlast
    have hc : (c == '\n') = false := by
      cases hn : c == '\n'
      · rfl
      · rw [hn] at hb; simp at hb
    simp [hlast, hc]

/-- Helper: the code's exact-shape check agrees with the spec's stated
acceptance predicate on every string. -/
theorem workerIdCore_iff_spec (t : String) :
    workerIdCore t = true ↔ SpecWorkerIdAccept t := by
  unfold workerIdCore SpecWorkerIdAccept
  have h7 : "worker-".data.length = 7 := by decide
  constructor
  · intro h
    rw [Bool.and_eq_true, Bool.and_eq_true] at h
    obtain ⟨⟨hp, hlen⟩, hall⟩ := h
    obtain ⟨tl, htl⟩ := List.isPrefixOf_iff_prefix.mp hp
    have hdrop : t.data.drop 7 = tl := by
      rw [← htl, ← h7, List.drop_left]
    refine ⟨tl, htl.symm, ?_, ?_⟩
    · rw [hdrop] at hlen
      simpa using hlen
    · rw [hdrop] at hall
      intro c hc
      have := List.all_eq_true.mp hall c hc
      simpa [isLowerHexDigit, Bool.or_eq_true, Bool.and_eq_true,
        decide_eq_true_eq] using this
  · rintro ⟨tl, ht, hlen, hall⟩
    have hdrop : t.data.drop 7 = tl := by
      rw [ht, ← h7, List.drop_left]
    rw [Bool.and_eq_true, Bool.and_eq_true]
    have hpfx := List.isPrefixOf_iff_prefix.mpr ⟨tl, ht.symm⟩
    refine ⟨⟨hpfx, ?_⟩, ?_⟩
    · rw [hdrop, hlen]; rfl
    · rw [hdrop]
      exact List.all_eq_true.mpr fun c hc => by
        simpa [isLowerHexDigit, Bool.or_eq_true, Bool.and_eq_true,
          decide_eq_true_eq] using hall c hc

/-- Helper: the docker staging loop raises its duplicate assertion
exactly when the accumulated dict keys together with the generated
paths of the remaining mappings contain a repeat. -/
theorem stage_go_raises_iff (mappings : List (String × String)) :
    ∀ (m copies : List (String × String)),
      (m.map Prod.fst).Nodup →
      ((∃ c, DockerContainerWorker.stage_file_mappings_go mappings m copies =
          .raisedAssertionError c) ↔
        ¬ (m.map Prod.fst ++
          mappings.map
            (fun q => "/file_mappings/" ++ basename q.1)).Nodup) := by
  induction mappings with
  | nil =>
    intro m copies hm
    simp [DockerContainerWorker.stage_file_mappings_go, hm]
  | cons e rest ih =>
    intro m copies hm
    obtain ⟨src, dst⟩ := e
    by_cases hdup :
        (m.any fun q => q.1 == "/file_mappings/" ++ basename src) = true
    · have hmem : ("/file_mappings/" ++ basename src) ∈ m.map Prod.fst := by
        obtain ⟨q, hq, hqe⟩ := List.any_eq_true.mp hdup
        exact List.mem_map.mpr ⟨q, hq, by simpa using hqe⟩
      constructor
      · intro _
        intro hnd
        obtain ⟨_, _, hdisj⟩ := List.nodup_append.mp hnd
        exact hdisj hmem (by simp)
      · intro _
        exact ⟨copies, by
          simp [DockerContainerWorker.stage_file_mappings_go, hdup]⟩
    · have hnotmem :
          ("/file_mappings/" ++ basename src) ∉ m.map Prod.fst := by
        intro hmem
        obtain ⟨q, hq, hqe⟩ := List.mem_map.mp hmem
        exact hdup (List.any_eq_true.mpr ⟨q, hq, by simp [hqe]⟩)
      have step :
          DockerContainerWorker.stage_file_mappings_go
              ((src, dst) :: rest) m copies =
            DockerContainerWorker.stage_file_mappings_go rest
              (m ++ [("/file_mappings/" ++ basename src, dst)])
              (copies ++ [(src, basename src)]) := by
        simp [DockerContainerWorker.stage_file_mappings_go, hdup]
      have hnodup2 :
          ((m ++ [("/file_mappings/" ++ basename src, dst)]).map
            Prod.fst).Nodup := by
        rw [List.map_append]
        exact List.nodup_append.mpr
          ⟨hm, by simp, fun a ha hb => hnotmem (by simpa [List.eq_of_mem_singleton hb] using ha)⟩
      rw [step, ih _ (copies ++ [(src, basename src)]) hnodup2]
      constructor
      · intro hno hnd
        exact hno (by
          rw [List.map_append]
          simpa [List.append_assoc] using hnd)
      · intro hno hnd
        exact hno (by
          rw [List.map_append] at hnd
          simpa [List.append_assoc] using hnd)

/-- Helper: with every `put_object` call succeeding, the upload loop of
`upload_files_to_s3` returns normally, having uploaded every file under
the key derived from its basename. -/
theorem upload_go_all_ok (bucket keyPre : String) :
    ∀ (files : List String) (m ups : List (String × String)),
      ∃ mm, upload_files_to_s3_go bucket keyPre (fun _ => true) files m ups =
        .ok mm (ups ++ files.map fun f => (keyPre ++ basename f, f)) := by
  intro files
  induction files with
  | nil => intro m ups; exact ⟨m, by simp [upload_files_to_s3_go]⟩
  | cons f rest ih =>
    intro m ups
    obtain ⟨mm, hmm⟩ := ih
      (dictInsert m f ("s3://" ++ bucket ++ "/" ++ (keyPre ++ basename f)))
      (ups ++ [(keyPre ++ basename f, f)])
    exact ⟨mm, by simp [upload_files_to_s3_go, hmm]⟩

/-- C4 counterexample: at the spec's own example input (two mappings
whose sources share the basename `foo.txt`), the VM staging path raises
no configuration error at all — both files are uploaded, to the same
key — and the container staging path, which does raise, does so only
after the first mapping's file has already been copied. -/
theorem staging_duplicate_basename_not_before_upload :
    upload_files_to_s3 "bkt" ["a/foo.txt", "b/foo.txt"] none
        (fun _ => true) =
      .ok [("a/foo.txt", "s3://bkt/instance/foo.txt"),
          ("b/foo.txt", "s3://bkt/instance/foo.txt")]
        [("instance/foo.txt", "a/foo.txt"),
          ("instance/foo.txt", "b/foo.txt")] ∧
    DockerContainerWorker.stage_file_mappings
        [("a/foo.txt", "/dst/foo.txt"), ("b/foo.txt", "/dst2/foo.txt")] =
      .raisedAssertionError [("a/foo.txt", "foo.txt")] := by
  exact ⟨by decide, by decide⟩

/-- C4 amended: only the container variant detects duplicate basenames:
its staging loop raises an assertion error iff two mappings share a
source basename, and the error fires on reaching the first duplicate —
after the files of the earlier mappings have already been copied (at the
spec's example input, one copy precedes the error). The VM variant
performs no duplicate detection: with `put_object` succeeding, every
file is uploaded and staging returns normally, duplicated basenames
silently colliding on the same S3 key. -/
theorem file_mapping_duplicate_detection
    (mappings : List (String × String)) (bucket : String)
    (files : List String) :
    ((∃ c, DockerContainerWorker.stage_file_mappings mappings =
        .raisedAssertionError c) ↔
      ¬ (mappings.map (fun q => basename q.1)).Nodup) ∧
    (∃ mm, upload_files_to_s3 bucket files none (fun _ => true) =
      .ok mm (files.map fun f => ("instance/" ++ basename f, f))) ∧
    DockerContainerWorker.stage_file_mappings
        [("a/foo.txt", "/dst/foo.txt"), ("b/foo.txt", "/dst2/foo.txt")] =
      .raisedAssertionError [("a/foo.txt", "foo.txt")] := by
  refine ⟨?_, ?_, by decide⟩
  · have base := stage_go_raises_iff mappings [] [] (by simp)
    rw [DockerContainerWorker.stage_file_mappings, base]
    have hinj : Function.Injective
        (fun b : String => "/file_mappings/" ++ b) := by
      intro a b hab
      apply String.ext
      have := congrArg String.data hab
      simpa [String.data_append] using this
    have hmapeq : mappings.map (fun q => "/file_mappings/" ++ basename q.1) =
        (mappings.map (fun q => basename q.1)).map
          (fun b => "/file_mappings/" ++ b) := by
      simp [List.map_map, Function.comp]
    simp only [List.map_nil, List.nil_append]
    rw [hmapeq, List.nodup_map_iff hinj]
  · obtain ⟨mm, hmm⟩ := upload_go_all_ok bucket "instance/" files [] []
    exact ⟨mm, by simpa [upload_files_to_s3] using hmm⟩

/-- C8: after stripping trailing CR/LF from the command stdout, the
worker-identifier acceptance check used by both variants accepts a
candidate iff it is exactly `worker-` followed by 32 lowercase hex
characters; on a zero-exit result the shared validation returns the
stripped identifier exactly when it is accepted and raises an assertion
(carrying the full result) otherwise; the empty string, uppercase hex,
wrong length, and a missing prefix are all rejected, while a valid
identifier with a trailing CRLF is accepted after stripping. -/
theorem worker_id_acceptance (s : String) (r : CommandResult)
    (hr : r.exit_code = 0) :
    (reMatchWorkerId (rstripNewlines s) = true ↔
      SpecWorkerIdAccept (rstripNewlines s)) ∧
    (validate_worker_id r = .ok (rstripNewlines r.stdout) ↔
      SpecWorkerIdAccept (rstripNewlines r.stdout)) ∧
    (¬ SpecWorkerIdAccept (rstripNewlines r.stdout) →
      validate_worker_id r = .raisedAssert r) ∧
    validate_worker_id ⟨0, "", none⟩ = .raisedAssert ⟨0, "", none⟩ ∧
    validate_worker_id
        ⟨0, "worker-0123456789ABCDEF0123456789ABCDEF", none⟩ =
      .raisedAssert ⟨0, "worker-0123456789ABCDEF0123456789ABCDEF", none⟩ ∧
    validate_worker_id ⟨0, "worker-0123456789abcdef", none⟩ =
      .raisedAssert ⟨0, "worker-0123456789abcdef", none⟩ ∧
    validate_worker_id
        ⟨0, "0123456789abcdef0123456789abcdef", none⟩ =
      .raisedAssert ⟨0, "0123456789abcdef0123456789abcdef", none⟩ ∧
    validate_worker_id
        ⟨0, "worker-0123456789abcdef0123456789abcdef\r\n", none⟩ =
      .ok "worker-0123456789abcdef0123456789abcdef" := by
  have core : ∀ t : String, (reMatchWorkerId (rstripNewlines t) = true ↔
      SpecWorkerIdAccept (rstripNewlines t)) := fun t => by
    rw [reMatch_rstrip t]
    exact workerIdCore_iff_spec (rstripNewlines t)
  have hval : validate_worker_id r =
      (if reMatchWorkerId (rstripNewlines r.stdout) then
        WorkerIdOutcome.ok (rstripNewlines r.stdout)
      else .raisedAssert r) := by
    simp [validate_worker_id, hr]
  refine ⟨core s, ?_, ?_, by decide, by decide, by decide, by decide,
    by decide⟩
  · by_cases hm : reMatchWorkerId (rstripNewlines r.stdout) = true
    · rw [hval, if_pos hm]
      simp [(core r.stdout).mp hm]
    · rw [hval, if_neg hm]
      constructor
      · intro h; cases h
      · intro hspec
        exact absurd ((core r.stdout).mpr hspec) hm
  · intro hspec
    have hm : reMatchWorkerId (rstripNewlines r.stdout) ≠ true :=
      fun hm => hspec ((core r.stdout).mp hm)
    rw [hval, if_neg hm]

/-- Witness for C8 at a concrete zero-exit result carrying a valid
identifier with a trailing newline. -/
theorem worker_id_acceptance_witness :
    ((⟨0, "worker-00112233445566778899aabbccddeeff\n", some ""⟩ :
        CommandResult).exit_code = 0) ∧
    (validate_worker_id
        ⟨0, "worker-00112233445566778899aabbccddeeff\n", some ""⟩ =
      .ok (rstripNewlines "worker-00112233445566778899aabbccddeeff\n") ↔
      SpecWorkerIdAccept
        (rstripNewlines "worker-00112233445566778899aabbccddeeff\n")) :=
  ⟨rfl,
    (worker_id_acceptance "worker-00112233445566778899aabbccddeeff\n"
      ⟨0, "worker-00112233445566778899aabbccddeeff\n", some ""⟩
      rfl).2.1⟩

/-- C2 counterexample: the container-variant channel runs the command
with `check=True`, so a command execution that completes with the
non-zero exit code 1 is raised as a `CalledProcessError` by
`DockerContainerWorker.send_command` itself; no `CommandResult` is
returned for it. -/
theorem docker_send_command_nonzero_raises :
    DockerContainerWorker.send_command (some "cid0") (.completed 1 "boom") =
      .raisedCalledProcessError 1 "boom" ∧
    ¬ ∃ r : CommandResult,
      DockerContainerWorker.send_command (some "cid0")
        (.completed 1 "boom") = .ok r := by
  refine ⟨by decide, ?_⟩
  rintro ⟨r, h⟩
  simp [DockerContainerWorker.send_command] at h

/-- C2 amended: the virtual-machine channel never raises a non-zero exit
code of a completed command — once dispatched, the fetched result is
returned as data whatever its exit code, and callers that require
success (the `worker_id` validation) assert on `exit_code` and raise an
`AssertionError` carrying the full `CommandResult` on violation. The
container channel, by contrast, runs with `check=True` and raises a
`CalledProcessError` for any completed command with non-zero exit code,
returning a `CommandResult` only when the exit code is zero. -/
theorem send_command_signaled_failure_handling
    (d : Nat → Instance.DispatchOutcome)
    (inv : String → Instance.SSMInvocation) (cid : String)
    (sleeps : List Nat)
    (hd : Instance.dispatchLoop d Instance.NUM_RETRIES 0 [] =
      .dispatched cid sleeps)
    (cid2 out : String) (code : Int) (hcode : code ≠ 0)
    (r : CommandResult) (hr : r.exit_code ≠ 0) :
    Instance.send_command d inv =
      .ok ⟨(inv cid).responseCode, (inv cid).standardOutputContent,
        some (inv cid).standardErrorContent⟩ sleeps ∧
    DockerContainerWorker.send_command (some cid2) (.completed code out) =
      .raisedCalledProcessError code out ∧
    DockerContainerWorker.send_command (some cid2) (.completed 0 out) =
      .ok ⟨0, out, none⟩ ∧
    validate_worker_id r = .raisedAssert r := by
  refine ⟨?_, ?_, ?_, ?_⟩
  · simp [Instance.send_command, hd]
  · simp [DockerContainerWorker.send_command, hcode]
  · simp [DockerContainerWorker.send_command]
  · simp [validate_worker_id, hr]

/-- Witness for the amended C2 at concrete oracles: a fetched result with
exit code 7 is returned as data by the VM channel and rejected by the
caller-side assertion, and the docker channel raises on exit code 7. -/
theorem send_command_signaled_failure_handling_witness :
    Instance.send_command (fun _ => .success "cmd-3")
        (fun _ => ⟨7, "out7", "err7"⟩) =
      .ok ⟨7, "out7", some "err7"⟩ [] ∧
    DockerContainerWorker.send_command (some "cid2") (.completed 7 "out7") =
      .raisedCalledProcessError 7 "out7" ∧
    DockerContainerWorker.send_command (some "cid2") (.completed 0 "out7") =
      .ok ⟨0, "out7", none⟩ ∧
    validate_worker_id ⟨7, "out7", some "err7"⟩ =
      .raisedAssert ⟨7, "out7", some "err7"⟩ :=
  send_command_signaled_failure_handling (fun _ => .success "cmd-3")
    (fun _ => ⟨7, "out7", "err7"⟩) "cmd-3" [] (by decide) "cid2" "out7" 7
    (by decide) ⟨7, "out7", some "err7"⟩ (by decide)

/-- C9 counterexample: the container-variant channel returns a
`CommandResult` whose stderr field is Python `None` (stderr is redirected
into stdout by `stderr=subprocess.STDOUT`), so a returned result is not
fully populated with stderr text. -/
theorem docker_result_stderr_none :
    ∃ r : CommandResult,
      DockerContainerWorker.send_command (some "cid1")
        (.completed 0 "hello") = .ok r ∧
      r.stderr = none :=
  ⟨⟨0, "hello", none⟩, by decide, rfl⟩

/-- C9 amended: a `CommandResult` is only returned once the channel judges
the execution complete, and the VM channel fully populates it (exit code,
stdout and stderr text from the terminal invocation fetch); the container
channel populates exit code (necessarily 0, because `check=True` raises
otherwise) and stdout, but its stderr field is Python `None` since stderr
is redirected into stdout. -/
theorem command_result_population
    (d : Nat → Instance.DispatchOutcome)
    (inv : String → Instance.SSMInvocation)
    (r : CommandResult) (sleeps : List Nat)
    (hvm : Instance.send_command d inv = .ok r sleeps)
    (cid2 : String) (exec : DockerContainerWorker.ExecOutcome)
    (r2 : CommandResult)
    (hdk : DockerContainerWorker.send_command (some cid2) exec = .ok r2) :
    (∃ cid, Instance.dispatchLoop d Instance.NUM_RETRIES 0 [] =
        .dispatched cid sleeps ∧
      r = ⟨(inv cid).responseCode, (inv cid).standardOutputContent,
        some (inv cid).standardErrorContent⟩) ∧
    (∃ e, r.stderr = some e) ∧
    r2.exit_code = 0 ∧ r2.stderr = none ∧
    exec = .completed 0 r2.stdout := by
  have hvm2 : ∃ cid, Instance.dispatchLoop d Instance.NUM_RETRIES 0 [] =
      .dispatched cid sleeps ∧
      r = ⟨(inv cid).responseCode, (inv cid).standardOutputContent,
        some (inv cid).standardErrorContent⟩ := by
    cases hq : Instance.dispatchLoop d Instance.NUM_RETRIES 0 [] with
    | dispatched cid ss =>
      simp [Instance.send_command, hq] at hvm
      obtain ⟨h1, h2⟩ := hvm
      subst h2
      exact ⟨cid, rfl, h1.symm⟩
    | raisedClientError c ss => simp [Instance.send_command, hq] at hvm
    | raisedOther m ss => simp [Instance.send_command, hq] at hvm
    | nameError ss => simp [Instance.send_command, hq] at hvm
  have hdk2 : r2.exit_code = 0 ∧ r2.stderr = none ∧
      exec = .completed 0 r2.stdout := by
    cases exec with
    | completed code o =>
      by_cases hc : code = 0
      · subst hc
        simp [DockerContainerWorker.send_command] at hdk
        subst hdk
        exact ⟨rfl, rfl, rfl⟩
      · simp [DockerContainerWorker.send_command, hc] at hdk
    | launchError m =>
      simp [DockerContainerWorker.send_command] at hdk
  obtain ⟨cid, hq, hr⟩ := hvm2
  exact ⟨⟨cid, hq, hr⟩, ⟨(inv cid).standardErrorContent, by simp [hr]⟩,
    hdk2⟩

namespace DockerContainerWorker

/-- Step lemma: a poll attempt whose `docker exec` completes with a
non-zero exit code raises `CalledProcessError`, which the polling
predicate catches; with at least one attempt left, the loop sleeps
`INTERVAL_S` seconds and retries. -/
theorem worker_id_go_fail_step (cid : String) (runs : Nat → ExecOutcome)
    (g k : Nat) (sleeps : List Nat) (code : Int) (out : String)
    (hc : code ≠ 0) (hr : runs k = .completed code out) :
    worker_id_go (some cid) runs (g + 1 + 1) k sleeps =
      worker_id_go (some cid) runs (g + 1) (k + 1)
        (sleeps ++ [INTERVAL_S]) := by
  rw [worker_id_go, hr]
  simp [send_command, hc]

/-- Run lemma: `n` consecutive failing poll attempts advance the loop
`n` attempts and record `n` sleeps of `INTERVAL_S` seconds, as long as
the budget is not exhausted. -/
theorem worker_id_go_fail_run (cid : String) (runs : Nat → ExecOutcome)
    (n : Nat) :
    ∀ fuel k sleeps,
      (∀ j, j < n →
        ∃ code out, code ≠ 0 ∧ runs (k + j) = .completed code out) →
      n < fuel →
      worker_id_go (some cid) runs fuel k sleeps =
        worker_id_go (some cid) runs (fuel - n) (k + n)
          (sleeps ++ List.replicate n INTERVAL_S) := by
  induction n with
  | zero => intro fuel k sleeps _ _; simp
  | succ n ih =>
    intro fuel k sleeps hfail hlt
    obtain ⟨g, rfl⟩ : ∃ g, fuel = g + 1 + 1 := ⟨fuel - 2, by omega⟩
    obtain ⟨code, out, hc, hr⟩ := hfail 0 (by omega)
    rw [worker_id_go_fail_step cid runs g k sleeps code out hc
      (by simpa using hr)]
    rw [ih (g + 1) (k + 1) (sleeps ++ [INTERVAL_S])
      (fun j hj => by
        obtain ⟨c2, o2, hc2, hr2⟩ := hfail (j + 1) (by omega)
        exact ⟨c2, o2, hc2, by
          rw [show k + 1 + j = k + (j + 1) by omega]; exact hr2⟩)
      (by omega)]
    congr 1
    · omega
    · omega
    · simp [List.replicate_succ, List.append_assoc]

/-- Step lemma: a poll attempt whose `docker exec` completes with exit
code 0 makes the predicate succeed; the post-wait validation then runs
on that result. -/
theorem worker_id_go_success_step (cid : String) (runs : Nat → ExecOutcome)
    (g k : Nat) (sleeps : List Nat) (out wid : String)
    (hr : runs k = .completed 0 out)
    (hv : validate_worker_id ⟨0, out, none⟩ = .ok wid) :
    worker_id_go (some cid) runs (g + 1) k sleeps =
      .ok wid (k + 1) sleeps := by
  rw [worker_id_go, hr]
  simp [send_command, hv]

/-- Step lemma: a failing poll attempt with no budget left makes
`wait_for` raise its timeout error. -/
theorem worker_id_go_last_fail (cid : String) (runs : Nat → ExecOutcome)
    (k : Nat) (sleeps : List Nat) (code : Int) (out : String)
    (hc : code ≠ 0) (hr : runs k = .completed code out) :
    worker_id_go (some cid) runs (0 + 1) k sleeps =
      .raisedTimeout (k + 1) sleeps := by
  rw [worker_id_go, hr]
  simp [send_command, hc]

end DockerContainerWorker

/-- C6: `DockerContainerWorker.worker_id` polls the state file with a
budget of 6 attempts at a 10-second interval; a poll whose read fails
(the `cat .. | jq ..` exits non-zero, raising `CalledProcessError`) is
retried rather than fatal; when the file is absent for the first 3
polls and present with a valid identifier on poll 4, the identifier is
returned after exactly 4 read attempts, with 3 sleeps of 10 seconds
between them; and when every poll fails, the budget is exhausted after
6 attempts and the retrieval raises. -/
theorem docker_worker_id_polling (cid : String)
    (runs1 runs2 : Nat → DockerContainerWorker.ExecOutcome)
    (h1a : ∀ k, k < 3 → runs1 k = .completed 1 "")
    (h1b : runs1 3 =
      .completed 0 "worker-0123456789abcdef0123456789abcdef\n")
    (h2 : ∀ k, k < 6 → runs2 k = .completed 1 "") :
    DockerContainerWorker.worker_id (some cid) runs1 =
      .ok "worker-0123456789abcdef0123456789abcdef" 4 [10, 10, 10] ∧
    DockerContainerWorker.worker_id (some cid) runs2 =
      .raisedTimeout 6 [10, 10, 10, 10, 10] := by
  constructor
  · have hrun : DockerContainerWorker.worker_id_go (some cid) runs1 6 0 [] =
        DockerContainerWorker.worker_id_go (some cid) runs1 3 3
          [10, 10, 10] :=
      DockerContainerWorker.worker_id_go_fail_run cid runs1 3 6 0 []
        (fun j hj => ⟨1, "", by decide, by simpa using h1a j (by omega)⟩)
        (by omega)
    have hv : validate_worker_id
        ⟨0, "worker-0123456789abcdef0123456789abcdef\n", none⟩ =
        .ok "worker-0123456789abcdef0123456789abcdef" := by decide
    have hstep := DockerContainerWorker.worker_id_go_success_step cid runs1
      2 3 [10, 10, 10] _ _ h1b hv
    calc DockerContainerWorker.worker_id (some cid) runs1
        = DockerContainerWorker.worker_id_go (some cid) runs1 6 0 [] := rfl
      _ = DockerContainerWorker.worker_id_go (some cid) runs1 3 3
            [10, 10, 10] := hrun
      _ = .ok "worker-0123456789abcdef0123456789abcdef" 4 [10, 10, 10] :=
            hstep
  · have hrun : DockerContainerWorker.worker_id_go (some cid) runs2 6 0 [] =
        DockerContainerWorker.worker_id_go (some cid) runs2 1 5
          [10, 10, 10, 10, 10] :=
      DockerContainerWorker.worker_id_go_fail_run cid runs2 5 6 0 []
        (fun j hj => ⟨1, "", by decide, by simpa using h2 j (by omega)⟩)
        (by omega)
    have hlast := DockerContainerWorker.worker_id_go_last_fail cid runs2 5
      [10, 10, 10, 10, 10] 1 "" (by decide) (h2 5 (by omega))
    calc DockerContainerWorker.worker_id (some cid) runs2
        = DockerContainerWorker.worker_id_go (some cid) runs2 6 0 [] := rfl
      _ = DockerContainerWorker.worker_id_go (some cid) runs2 1 5
            [10, 10, 10, 10, 10] := hrun
      _ = .raisedTimeout 6 [10, 10, 10, 10, 10] := hlast

/-- Witness for C6 at concrete poll oracles. -/
theorem docker_worker_id_polling_witness :
    DockerContainerWorker.worker_id (some "cid6")
        (fun k => if k < 3 then .completed 1 ""
          else .completed 0 "worker-0123456789abcdef0123456789abcdef\n") =
      .ok "worker-0123456789abcdef0123456789abcdef" 4 [10, 10, 10] ∧
    DockerContainerWorker.worker_id (some "cid6")
        (fun _ => .completed 1 "") =
      .raisedTimeout 6 [10, 10, 10, 10, 10] :=
  docker_worker_id_polling "cid6"
    (fun k => if k < 3 then .completed 1 ""
      else .completed 0 "worker-0123456789abcdef0123456789abcdef\n")
    (fun _ => .completed 1 "")
    (by decide) (by decide) (by decide)

/-- Witness for the amended C9 at concrete oracles. -/
theorem command_result_population_witness :
    (∃ cid,
      Instance.dispatchLoop (fun _ => .success "cmd-4")
          Instance.NUM_RETRIES 0 [] = .dispatched cid [] ∧
      (⟨3, "o4", some "e4"⟩ : CommandResult) =
        ⟨((fun _ => (⟨3, "o4", "e4"⟩ : Instance.SSMInvocation)) cid).responseCode,
          ((fun _ => (⟨3, "o4", "e4"⟩ : Instance.SSMInvocation)) cid).standardOutputContent,
          some ((fun _ => (⟨3, "o4", "e4"⟩ : Instance.SSMInvocation)) cid).standardErrorContent⟩) ∧
    (∃ e, (⟨3, "o4", some "e4"⟩ : CommandResult).stderr = some e) ∧
    (⟨0, "h", none⟩ : CommandResult).exit_code = 0 ∧
    (⟨0, "h", none⟩ : CommandResult).stderr = none ∧
    DockerContainerWorker.ExecOutcome.completed 0 "h" =
      .completed 0 (⟨0, "h", none⟩ : CommandResult).stdout :=
  command_result_population (fun _ => .success "cmd-4")
    (fun _ => ⟨3, "o4", "e4"⟩) ⟨3, "o4", some "e4"⟩ [] (by decide)
    "cid1" (.completed 0 "h") ⟨0, "h", none⟩ (by decide)

end DeadlineTestFixtures
